import Mathlib

/-!
Shallow embedding of the rusty-vm-2 core (src/core.rs, src/opcodes.rs,
src/cpu.rs error types, src/mmio.rs bus, src/gpu.rs framebuffer device).

Machine integers are modelled as `Nat`; the `u32`/`u8` casts of the source
are explicit `% 2^32` / `% 256` where the source performs an `as` cast.
Bit-field extraction `(x >> k) & mask` (with an all-ones mask) is modelled
as `x / 2^k % (mask+1)`.  Rust panics are modelled by `Option` (`none`).
-/

namespace RustyVM

/-- Bytes of a little-endian `u32`: `value.to_le_bytes()[i]`. -/
def leByte (v i : Nat) : Nat := v / 2 ^ (8 * i) % 256

/-- Reassemble `u32::from_le_bytes([b0,b1,b2,b3])` (bytes are < 256 in the source). -/
def fromLeBytes (b0 b1 b2 b3 : Nat) : Nat := b0 + b1 * 2 ^ 8 + b2 * 2 ^ 16 + b3 * 2 ^ 24

/-- Reassemble `u32::from_be_bytes([b0,b1,b2,b3])` (bytes are < 256 in the source). -/
def fromBeBytes (b0 b1 b2 b3 : Nat) : Nat := b0 * 2 ^ 24 + b1 * 2 ^ 16 + b2 * 2 ^ 8 + b3

/-- Memory (src/memory.rs): one byte array, modelled as a byte map. -/
structure Memory where
  data : Nat → Nat

/-- `mem.data[address] = value` for a `u8` value. -/
def Memory.setByte (m : Memory) (address value : Nat) : Memory :=
  ⟨fun x => if x = address then value else m.data x⟩

/-- Register file: Rust `[u32; 32]`, indices used are always 5-bit fields. -/
def Regs.write (r : Nat → Nat) (i v : Nat) : Nat → Nat :=
  fun j => if j = i then v else r j

/-- Opcode enumeration (src/opcodes.rs). -/
inductive OpCode
  | NOOP
  | LOAD_IMM
  | LDUP_IMM
  | STOR_IMM
  | LOAD_BYTE
  | STOR_BYTE
  | JUMP_IMM
  | JUMP_REG
  | BRAN_IMM
  | BRAN_REG
  | ADD
  | SUB
  | AND
  | ORR
  | ORI
  | XOR
  | RTRN
  | RTRN_POP
  | RSET_SOFT
  | RSET_HARD
  | HALT
  | IRPT_SEND
deriving DecidableEq, Repr

/-- `num_enum::TryFromPrimitive` on the `#[repr(u32)]` values of src/opcodes.rs. -/
def OpCode.tryFrom (v : Nat) : Option OpCode :=
  match v with
  | 0x00 => some .NOOP
  | 0x01 => some .LOAD_IMM
  | 0x02 => some .LDUP_IMM
  | 0x03 => some .STOR_IMM
  | 0x04 => some .LOAD_BYTE
  | 0x05 => some .STOR_BYTE
  | 0x10 => some .JUMP_IMM
  | 0x11 => some .JUMP_REG
  | 0x12 => some .BRAN_IMM
  | 0x13 => some .BRAN_REG
  | 0x20 => some .ADD
  | 0x21 => some .SUB
  | 0x24 => some .AND
  | 0x25 => some .ORR
  | 0x26 => some .ORI
  | 0x27 => some .XOR
  | 0x3E => some .RTRN
  | 0x3D => some .RTRN_POP
  | 0x40 => some .RSET_SOFT
  | 0x41 => some .RSET_HARD
  | 0x4F => some .HALT
  | 0x50 => some .IRPT_SEND
  | _ => none

/-- Interrupt kinds (src/cpu.rs). -/
inductive InterruptType
  | Resume
  | Halt
  | SoftReset
  | HardReset
deriving DecidableEq, Repr

/-- Interrupt message (src/cpu.rs). -/
structure Interrupt where
  sender_id : Nat
  interrupt_type : InterruptType

/-- Error kinds (src/cpu.rs `CpuErrorType`).  `SubWithOverflow` is referenced by
the SUB arm of src/core.rs although the enum in src/cpu.rs omits it; it is
included here so that arm is expressible. -/
inductive CpuErrorType
  | StackOverflow
  | InvalidInstruction (w : Nat)
  | UnimplementedOpCode (op : OpCode)
  | Halt
  | DivisionByZero
  | StackOpOutOfBounds
  | AddWithOverflow
  | SubWithOverflow
deriving DecidableEq, Repr

inductive CpuErrorSeverity
  | Severe
  | Minor
deriving DecidableEq, Repr

/-- Severity match of src/cpu.rs (`impl Severity for CpuErrorType`).  The source
match has no arm for `SubWithOverflow` (the variant is absent from the enum in
src/cpu.rs), hence `none` there. -/
def CpuErrorType.severity : CpuErrorType → Option CpuErrorSeverity
  | .StackOverflow => some .Severe
  | .InvalidInstruction _ => some .Severe
  | .UnimplementedOpCode _ => some .Severe
  | .Halt => some .Severe
  | .DivisionByZero => some .Minor
  | .StackOpOutOfBounds => some .Minor
  | .AddWithOverflow => some .Minor
  | .SubWithOverflow => none

/-- Fault report (src/cpu.rs `CpuError`). -/
structure CpuError where
  error_type : CpuErrorType
  program_counter : Nat
  stack_pointer : Nat
  register_snapshot : Nat → Nat
  core_index : Nat

/-- `CpuError::new` argument order of src/cpu.rs. -/
def CpuError.new (program_counter stack_pointer : Nat) (register_snapshot : Nat → Nat)
    (error_type : CpuErrorType) (core_index : Nat) : CpuError :=
  ⟨error_type, program_counter, stack_pointer, register_snapshot, core_index⟩

/-- Core state (src/core.rs).  The mpsc endpoints are not data; the message a
tick pushes into a sender is returned by `tick` instead (field `sent` of
`TickResult`). -/
structure Core where
  program_counter : Nat
  stack_pointer : Nat
  registers : Nat → Nat
  eq_flag : Bool
  index : Nat
  busy : Bool
  halted : Bool

/-- `advance_pc` (src/core.rs:55-61). -/
def Core.advance_pc (c : Core) : Core :=
  if c.program_counter < 0x40000000 then
    { c with program_counter := c.program_counter + 1 }
  else
    { c with program_counter := 0 }

/-- `advance_sp` (src/core.rs:63-70). -/
def Core.advance_sp (c : Core) : Core :=
  if c.stack_pointer < 0x80000000 then
    { c with stack_pointer := c.stack_pointer + 1 }
  else
    { c with stack_pointer := 0x40000000 }

/-- `decrease_sp` (src/core.rs:72-79). -/
def Core.decrease_sp (c : Core) : Core :=
  if c.stack_pointer > 0x40000000 then
    { c with stack_pointer := c.stack_pointer - 1 }
  else
    { c with stack_pointer := 0x7FFFFFFF }

/-- `write_byte` (src/core.rs:81-84): direct store into the RAM byte array. -/
def Core.write_byte (_c : Core) (m : Memory) (address value : Nat) : Memory :=
  m.setByte address value

/-- `read_byte` (src/core.rs:86-89). -/
def Core.read_byte (_c : Core) (m : Memory) (address : Nat) : Nat :=
  m.data address

/-- `write_u32_to_ram` (src/core.rs:91-103): the `for i in 0..4` loop unrolled. -/
def Core.write_u32_to_ram (c : Core) (m : Memory) (value : Nat) : Core × Memory :=
  let m0 := c.write_byte m c.stack_pointer (leByte value 0)
  let c0 := c.advance_sp
  let m1 := c0.write_byte m0 c0.stack_pointer (leByte value 1)
  let c1 := c0.advance_sp
  let m2 := c1.write_byte m1 c1.stack_pointer (leByte value 2)
  let c2 := c1.advance_sp
  let m3 := c2.write_byte m2 c2.stack_pointer (leByte value 3)
  let c3 := c2.advance_sp
  (c3, m3)

/-- `read_u32_from_ram` (src/core.rs:105-118): the loop unrolled; the four bytes
are reassembled with `u32::from_be_bytes`. -/
def Core.read_u32_from_ram (c : Core) (m : Memory) : Core × Nat :=
  let c0 := c.decrease_sp
  let b0 := c0.read_byte m c0.stack_pointer
  let c1 := c0.decrease_sp
  let b1 := c1.read_byte m c1.stack_pointer
  let c2 := c1.decrease_sp
  let b2 := c2.read_byte m c2.stack_pointer
  let c3 := c2.decrease_sp
  let b3 := c3.read_byte m c3.stack_pointer
  (c3, fromBeBytes b0 b1 b2 b3)

/-- `pop_u32_from_ram` (src/core.rs:120-135): like `read_u32_from_ram` but each
byte read is zeroed in RAM. -/
def Core.pop_u32_from_ram (c : Core) (m : Memory) : Core × Memory × Nat :=
  let c0 := c.decrease_sp
  let b0 := m.data c0.stack_pointer
  let m0 := m.setByte c0.stack_pointer 0
  let c1 := c0.decrease_sp
  let b1 := m0.data c1.stack_pointer
  let m1 := m0.setByte c1.stack_pointer 0
  let c2 := c1.decrease_sp
  let b2 := m1.data c2.stack_pointer
  let m2 := m1.setByte c2.stack_pointer 0
  let c3 := c2.decrease_sp
  let b3 := m2.data c3.stack_pointer
  let m3 := m2.setByte c3.stack_pointer 0
  (c3, m3, fromBeBytes b0 b1 b2 b3)

/-- `fetch_u32` (src/core.rs:137-145): four byte reads at PC, each followed by
`advance_pc`, assembled little-endian.  Memory is not mutated. -/
def Core.fetch_u32 (c : Core) (m : Memory) : Core × Nat :=
  let b0 := m.data c.program_counter
  let c0 := c.advance_pc
  let b1 := m.data c0.program_counter
  let c1 := c0.advance_pc
  let b2 := m.data c1.program_counter
  let c2 := c1.advance_pc
  let b3 := m.data c2.program_counter
  let c3 := c2.advance_pc
  (c3, fromLeBytes b0 b1 b2 b3)

/-- `reset_soft` (src/core.rs:40-45). -/
def Core.reset_soft (c : Core) (m : Memory) : Core :=
  let c0 := { c with program_counter := 0 + c.index * 4 }
  let fr := c0.fetch_u32 m
  { fr.1 with program_counter := fr.2, stack_pointer := 0x40000000 }

/-- `reset_hard` (src/core.rs:47-52). -/
def Core.reset_hard (c : Core) (m : Memory) : Core :=
  { c.reset_soft m with registers := fun _ => 0 }

/-- `handle_interrupts` (src/core.rs:147-155).  Note the source really does
assign `halted = false` on `Halt` and `halted = true` on `Resume`. -/
def Core.handle_interrupts (c : Core) (interrupt : Interrupt) (m : Memory) : Core :=
  match interrupt.interrupt_type with
  | .Halt => { c with halted := false }
  | .Resume => { c with halted := true }
  | .SoftReset => c.reset_soft m
  | .HardReset => c.reset_hard m

/-- Result of one `tick`: the mutated core and memory, `result = some e` for
`Err(e)` and `none` for `Ok(())`, and `sent` records the message (with its
target index) handed to `senders[target].send` if any. -/
structure TickResult where
  core : Core
  mem : Memory
  result : Option CpuError
  sent : Option (Nat × Interrupt)

/-- Stack pointer of a tick result. -/
def TickResult.spv (r : TickResult) : Nat := r.core.stack_pointer

/-- Program counter of a tick result. -/
def TickResult.pcv (r : TickResult) : Nat := r.core.program_counter

/-- Fault kind (if any) of a tick result. -/
def TickResult.faultKind (r : TickResult) : Option CpuErrorType :=
  Option.map CpuError.error_type r.result

/-- Dispatch body of `tick` (src/core.rs:159-331): decode of the already fetched
instruction word and the `match opcode` arms.  `none` models the `panic!` in the
IRPT_SEND arm.  The wildcard arm of the source is reached exactly by
`STOR_IMM` (the only enum variant without an executor in src/core.rs). -/
def Core.execute (c : Core) (m : Memory) (instruction : Nat) : Option TickResult :=
  match (OpCode.tryFrom (instruction / 2 ^ 25 % 128)).getD OpCode.NOOP with
  | .LOAD_IMM =>
      let rde := instruction / 2 ^ 20 % 32
      let value := instruction % 2 ^ 20
      some ⟨{ c with registers := Regs.write c.registers rde value }, m, none, none⟩
  | .LDUP_IMM =>
      let rde := instruction / 2 ^ 20 % 32
      let value := instruction % 2 ^ 20
      let regs := Regs.write c.registers rde (value * 2 ^ 12 % 2 ^ 32)
      some ⟨{ c with registers := regs }, m, none, none⟩
  | .LOAD_BYTE =>
      let rde := instruction / 2 ^ 20 % 32
      let addr := instruction / 2 ^ 15 % 32
      let value := c.read_byte m addr
      some ⟨{ c with registers := Regs.write c.registers rde value }, m, none, none⟩
  | .STOR_BYTE =>
      let addr := instruction / 2 ^ 20 % 32
      let value := c.registers (instruction / 2 ^ 15 % 32)
      some ⟨c, c.write_byte m addr (value % 256), none, none⟩
  | .JUMP_IMM =>
      let addr := instruction % 2 ^ 25
      some ⟨{ c with program_counter := addr }, m, none, none⟩
  | .JUMP_REG =>
      let rs1 := instruction % 32
      some ⟨{ c with program_counter := c.registers rs1 }, m, none, none⟩
  | .BRAN_IMM =>
      let cm := c.write_u32_to_ram m c.program_counter
      let addr := instruction % 2 ^ 25
      some ⟨{ cm.1 with program_counter := addr }, cm.2, none, none⟩
  | .BRAN_REG =>
      let cm := c.write_u32_to_ram m c.program_counter
      let rs1 := instruction % 32
      some ⟨{ cm.1 with program_counter := cm.1.registers rs1 }, cm.2, none, none⟩
  | .RTRN =>
      let ca := c.read_u32_from_ram m
      some ⟨{ ca.1 with program_counter := ca.2 }, m, none, none⟩
  | .RTRN_POP =>
      let cma := c.pop_u32_from_ram m
      some ⟨{ cma.1 with program_counter := cma.2.2 }, cma.2.1, none, none⟩
  | .ORR =>
      let rde := instruction / 2 ^ 20 % 32
      let rs1 := instruction / 2 ^ 15 % 32
      let rs2 := instruction / 2 ^ 10 % 32
      let regs := Regs.write c.registers rde (c.registers rs1 ||| c.registers rs2)
      some ⟨{ c with registers := regs }, m, none, none⟩
  | .ORI =>
      let rde := instruction / 2 ^ 20 % 32
      let value := instruction % 2 ^ 20
      let regs := Regs.write c.registers rde (c.registers rde ||| value)
      some ⟨{ c with registers := regs }, m, none, none⟩
  | .XOR =>
      let rde := instruction / 2 ^ 20 % 32
      let rs1 := instruction / 2 ^ 15 % 32
      let rs2 := instruction / 2 ^ 10 % 32
      let regs := Regs.write c.registers rde (c.registers rs1 ^^^ c.registers rs2)
      some ⟨{ c with registers := regs }, m, none, none⟩
  | .AND =>
      let rde := instruction / 2 ^ 20 % 32
      let rs1 := instruction / 2 ^ 15 % 32
      let rs2 := instruction / 2 ^ 10 % 32
      let regs := Regs.write c.registers rde (c.registers rs1 &&& c.registers rs2)
      some ⟨{ c with registers := regs }, m, none, none⟩
  | .ADD =>
      let rde := instruction / 2 ^ 20 % 32
      let rs1 := instruction / 2 ^ 15 % 32
      let rs2 := instruction / 2 ^ 10 % 32
      let value := c.registers rs1 + c.registers rs2
      if value > 0xFFFFFFFF then
        let cw : Core := { c with registers := Regs.write c.registers rde (value / 2 % 2 ^ 32) }
        some ⟨cw, m,
          some (CpuError.new cw.program_counter cw.stack_pointer cw.registers
            .AddWithOverflow cw.index), none⟩
      else
        some ⟨{ c with registers := Regs.write c.registers rde (value % 2 ^ 32) },
          m, none, none⟩
  | .SUB =>
      let rde := instruction / 2 ^ 20 % 32
      let rs1 := instruction / 2 ^ 15 % 32
      let rs2 := instruction / 2 ^ 10 % 32
      if c.registers rs1 ≥ c.registers rs2 then
        let regs := Regs.write c.registers rde (c.registers rs1 - c.registers rs2)
        some ⟨{ c with registers := regs }, m, none, none⟩
      else
        some ⟨c, m,
          some (CpuError.new c.program_counter c.stack_pointer c.registers
            .SubWithOverflow c.index), none⟩
  | .NOOP =>
      some ⟨c, m, none, none⟩
  | .RSET_SOFT =>
      some ⟨c.reset_soft m, m, none, none⟩
  | .RSET_HARD =>
      some ⟨c.reset_hard m, m, none, none⟩
  | .HALT =>
      some ⟨c, m,
        some (CpuError.new c.program_counter c.stack_pointer c.registers .Halt c.index),
        none⟩
  | .IRPT_SEND =>
      let target_idx := instruction / 2 ^ 20 % 32
      let itype_val := instruction / 2 ^ 15 % 32
      if target_idx < 4 then
        match itype_val with
        | 1 => some ⟨c, m, none, some (target_idx, ⟨c.index, .Resume⟩)⟩
        | 2 => some ⟨c, m, none, some (target_idx, ⟨c.index, .Halt⟩)⟩
        | 3 => some ⟨c, m, none, some (target_idx, ⟨c.index, .SoftReset⟩)⟩
        | 4 => some ⟨c, m, none, some (target_idx, ⟨c.index, .HardReset⟩)⟩
        | _ => none
      else
        some ⟨c, m, none, none⟩
  | .STOR_IMM =>
      some ⟨c, m,
        some (CpuError.new c.program_counter c.stack_pointer c.registers
          (.UnimplementedOpCode .STOR_IMM) c.index),
        none⟩

/-- `tick` (src/core.rs:157-332): fetch then decode-and-dispatch. -/
def Core.tick (c : Core) (m : Memory) : Option TickResult :=
  let fr := c.fetch_u32 m
  fr.1.execute m fr.2

/-- Two consecutive ticks, threading core and memory. -/
def Core.tick2 (c : Core) (m : Memory) : Option TickResult :=
  match c.tick m with
  | some r => r.core.tick r.mem
  | none => none

/-- MMIO region (src/mmio.rs `MmioRegion`).  The `dyn AddressSpace` device is
modelled by its observable interface: `devRead` is the device's `read8`
behaviour, and `devWrites` logs every `write8(offset, value)` call the device
receives. -/
structure MmioRegion where
  base : Nat
  size : Nat
  devRead : Nat → Nat
  devWrites : List (Nat × Nat)

/-- Bus (src/mmio.rs `Bus`): backing RAM plus registered regions. -/
structure Bus where
  ram : Memory
  regions : List MmioRegion

/-- Region-scan of `Bus::read8` (src/mmio.rs:31-39): first region with
`base ≤ addr < base + size` answers with `read8(addr - base)`; otherwise the
byte comes from RAM. -/
def busRead8Scan (regions : List MmioRegion) (ram : Memory) (addr : Nat) : Nat :=
  match regions with
  | [] => ram.data addr
  | d :: rest =>
      if d.base ≤ addr ∧ addr < d.base + d.size then
        d.devRead (addr - d.base)
      else
        busRead8Scan rest ram addr

/-- `Bus::read8` (src/mmio.rs:31-39). -/
def Bus.read8 (b : Bus) (addr : Nat) : Nat :=
  busRead8Scan b.regions b.ram addr

/-- Region-scan of `Bus::write8` (src/mmio.rs:40-51): `some regions'` when a
region matched and received the write, `none` when the loop fell through. -/
def busWrite8Scan (regions : List MmioRegion) (addr value : Nat) : Option (List MmioRegion) :=
  match regions with
  | [] => none
  | d :: rest =>
      if d.base ≤ addr ∧ addr < d.base + d.size then
        some ({ d with devWrites := d.devWrites ++ [(addr - d.base, value)] } :: rest)
      else
        Option.map (d :: ·) (busWrite8Scan rest addr value)

/-- `Bus::write8` (src/mmio.rs:40-51): a matching region receives the write and
RAM is untouched; otherwise the byte goes to RAM. -/
def Bus.write8 (b : Bus) (addr value : Nat) : Bus :=
  match busWrite8Scan b.regions addr value with
  | some regions => { b with regions := regions }
  | none => { b with ram := b.ram.setByte addr value }

/-- Index of the first region covering `addr`, if any (the search order of the
`for device in &self.regions` loops). -/
def firstHit (regions : List MmioRegion) (addr : Nat) : Option Nat :=
  match regions with
  | [] => none
  | d :: rest =>
      if d.base ≤ addr ∧ addr < d.base + d.size then
        some 0
      else
        Option.map (· + 1) (firstHit rest addr)

/-- Graphics mode (src/gpu.rs). -/
inductive GpuGraphicsMode
  | Text
  | Full
deriving DecidableEq, Repr

/-- Framebuffer device (src/gpu.rs `GPU`).  `registers` is Rust `[u32; 10]`,
kept as a length-10 list; the pixel buffer is a word map. -/
structure GPU where
  mode : GpuGraphicsMode
  ram : Memory
  frame_buffer : Nat → Nat
  registers : List Nat
  map_base : Nat

/-- `GPU::write8` (src/gpu.rs:117-124): offsets `≥ 0x10` are rejected leaving
the device unchanged; otherwise `self.registers[addr_offset] = value as u32`,
which in Rust panics (`none`) when the index reaches past the 10-element
array. -/
def GPU.write8 (g : GPU) (addr_offset value : Nat) : Option GPU :=
  if addr_offset ≥ 0x10 then
    some g
  else if addr_offset < 10 then
    some { g with registers := g.registers.set addr_offset value }
  else
    none

/-- `GPU::write32` (src/gpu.rs:125-133): same bound check and register store as
`write8`, with a full word. -/
def GPU.write32 (g : GPU) (addr_offset value : Nat) : Option GPU :=
  if addr_offset ≥ 0x10 then
    some g
  else if addr_offset < 10 then
    some { g with registers := g.registers.set addr_offset value }
  else
    none

/-! ## Concrete states used by the claim theorems -/

def c4core : Core :=
  ⟨0x100, 0x40000000, fun i => if i = 1 then 0xFFFFFFFF else if i = 2 then 1 else 0,
   false, 0, true, false⟩

def c4mem : Memory := ⟨fun _ => 0⟩

/-- `ADD r3, r1, r2` encoded per src/opcodes.rs. -/
def c4instr : Nat := 0x20 * 2 ^ 25 + 3 * 2 ^ 20 + 1 * 2 ^ 15 + 2 * 2 ^ 10

def c10core : Core := ⟨0x40, 0x40000000, fun _ => 0, false, 0, true, false⟩

def c10mem : Memory := ⟨fun _ => 0⟩

/-- `IRPT_SEND` with target field 5 (no such core) and kind field 3. -/
def c10instr : Nat := 0x50 * 2 ^ 25 + 5 * 2 ^ 20 + 3 * 2 ^ 15

def c6core : Core := ⟨0, 0x40000000, fun _ => 0, false, 0, true, false⟩

/-- Instruction word `0xFE000000` (opcode bits `0x7F`, unmapped) at address 0. -/
def c6mem : Memory := ⟨fun a => if a = 3 then 0xFE else 0⟩

def c2core : Core := ⟨0x88, 0x40000000, fun _ => 0, false, 1, false, false⟩

def c2mem : Memory := ⟨fun _ => 0⟩

def c8core : Core := ⟨0, 0x40000000, fun _ => 0, false, 0, true, false⟩

/-- Boot scenario memory: `RAM[0..3] = 0x00000088` little-endian. -/
def c8mem : Memory := ⟨fun a => if a = 0 then 0x88 else 0⟩

def c5ccore : Core := ⟨0, 0x7FFFFFFC, fun _ => 0, false, 0, true, false⟩

/-- `BRAN_IMM 0x200` at address 0 (word `0x24000200`, little-endian bytes). -/
def c5cmem : Memory := ⟨fun a => if a = 1 then 2 else if a = 3 then 0x24 else 0⟩

def c5wcore : Core := ⟨0, 0x40000000, fun _ => 0, false, 0, true, false⟩

def c5wmem : Memory := ⟨fun _ => 0⟩

def c5wres : TickResult := ⟨{ c5wcore with program_counter := 4 }, c5wmem, none, none⟩

def c1core : Core :=
  ⟨0x28, 0x40000000, fun i => if i = 2 then 0x1002 else if i = 3 then 0x5A else 0,
   false, 0, true, false⟩

def c1mem : Memory := ⟨fun _ => 0⟩

/-- `STOR_BYTE` with first field (bits 24..20) = 2 and second field
(bits 19..15) = 3. -/
def c1instr : Nat := 0x05 * 2 ^ 25 + 2 * 2 ^ 20 + 3 * 2 ^ 15

def c9gpu : GPU :=
  ⟨GpuGraphicsMode.Full, ⟨fun _ => 0⟩, fun _ => 0, List.replicate 10 0, 0x1000⟩

def c7reg : MmioRegion := ⟨0x1000, 0x10, fun _ => 0xAB, []⟩

def c7bus : Bus := ⟨⟨fun _ => 0⟩, [c7reg]⟩

def c3ccore : Core := ⟨0x100, 0x7FFFFFFD, fun _ => 0, false, 0, true, false⟩

/-- Program bytes: `BRAN_IMM 0x200` (word `0x24000200`) at `0x100`, `RTRN`
(word `0x7C000000`) at `0x200`. -/
def c3cmem : Memory :=
  ⟨fun a => if a = 0x101 then 2 else if a = 0x103 then 0x24 else
    if a = 0x203 then 0x7C else 0⟩

def c3wcore : Core := ⟨0x100, 0x40000000, fun _ => 0, false, 0, true, false⟩

/-! ## Helper lemmas -/

theorem Memory.setByte_self (m : Memory) (a v : Nat) : (m.setByte a v).data a = v := by
  simp [Memory.setByte]

theorem Memory.setByte_other (m : Memory) (a v b : Nat) (h : b ≠ a) :
    (m.setByte a v).data b = m.data b := by
  simp [Memory.setByte, h]

theorem Core.fetch_u32_eq (c : Core) (m : Memory) (h : c.program_counter + 4 ≤ 0x40000000) :
    c.fetch_u32 m =
      ({ c with program_counter := c.program_counter + 4 },
       fromLeBytes (m.data c.program_counter) (m.data (c.program_counter + 1))
         (m.data (c.program_counter + 2)) (m.data (c.program_counter + 3))) := by
  obtain ⟨pc, sp, regs, eqf, idx, bsy, hlt⟩ := c
  simp only at h
  have h0 : pc < 0x40000000 := by omega
  have h1 : pc + 1 < 0x40000000 := by omega
  have h2 : pc + 1 + 1 < 0x40000000 := by omega
  have h3 : pc + 1 + 1 + 1 < 0x40000000 := by omega
  simp only [Core.fetch_u32, Core.advance_pc, h0, h1, h2, h3, if_true, if_pos]

theorem Core.write_u32_to_ram_eq (c : Core) (m : Memory) (v : Nat)
    (hl : 0x40000000 ≤ c.stack_pointer) (hu : c.stack_pointer + 4 ≤ 0x80000000) :
    c.write_u32_to_ram m v =
      ({ c with stack_pointer := c.stack_pointer + 4 },
       ((((m.setByte c.stack_pointer (leByte v 0)).setByte (c.stack_pointer + 1)
         (leByte v 1)).setByte (c.stack_pointer + 2) (leByte v 2)).setByte
         (c.stack_pointer + 3) (leByte v 3))) := by
  obtain ⟨pc, sp, regs, eqf, idx, bsy, hlt⟩ := c
  simp only at hl hu
  have h0 : sp < 0x80000000 := by omega
  have h1 : sp + 1 < 0x80000000 := by omega
  have h2 : sp + 1 + 1 < 0x80000000 := by omega
  have h3 : sp + 1 + 1 + 1 < 0x80000000 := by omega
  simp only [Core.write_u32_to_ram, Core.write_byte, Core.advance_sp, h0, h1, h2, h3,
    if_true, if_pos]

theorem Core.read_u32_from_ram_eq (c : Core) (m : Memory)
    (h : 0x40000000 + 4 ≤ c.stack_pointer) :
    c.read_u32_from_ram m =
      ({ c with stack_pointer := c.stack_pointer - 4 },
       fromBeBytes (m.data (c.stack_pointer - 1)) (m.data (c.stack_pointer - 2))
         (m.data (c.stack_pointer - 3)) (m.data (c.stack_pointer - 4))) := by
  obtain ⟨pc, sp, regs, eqf, idx, bsy, hlt⟩ := c
  simp only at h
  have h0 : sp > 0x40000000 := by omega
  have h1 : sp - 1 > 0x40000000 := by omega
  have h2 : sp - 1 - 1 > 0x40000000 := by omega
  have h3 : sp - 1 - 1 - 1 > 0x40000000 := by omega
  simp only [Core.read_u32_from_ram, Core.read_byte, Core.decrease_sp, h0, h1, h2, h3,
    if_true, if_pos]
  rw [show sp - 1 - 1 - 1 - 1 = sp - 4 from by omega,
    show sp - 1 - 1 - 1 = sp - 3 from by omega,
    show sp - 1 - 1 = sp - 2 from by omega]

theorem pushed_bytes_roundtrip (v : Nat) (hv : v < 2 ^ 32) :
    fromBeBytes (leByte v 3) (leByte v 2) (leByte v 1) (leByte v 0) = v := by
  simp only [fromBeBytes, leByte]
  norm_num
  omega

/-! ## Claim theorems -/

/-- Claim C4: for register values `a = R[rs1]`, `b = R[rs2]`, executing ADD
stores `a + b` into `R[rde]` with no fault when `a + b ≤ 2^32 - 1`, and
otherwise stores `(a + b) >> 1` (64-bit computation truncated to 32 bits) and
returns a minor `AddWithOverflow` fault. -/
theorem claim_C4_add_overflow (c : Core) (m : Memory) (instr : Nat)
    (hop : instr / 2 ^ 25 % 128 = 0x20)
    (ha : c.registers (instr / 2 ^ 15 % 32) < 2 ^ 32)
    (hb : c.registers (instr / 2 ^ 10 % 32) < 2 ^ 32) :
    (c.registers (instr / 2 ^ 15 % 32) + c.registers (instr / 2 ^ 10 % 32) ≤ 2 ^ 32 - 1 →
      c.execute m instr =
        some ⟨{ c with registers := (Regs.write c.registers (instr / 2 ^ 20 % 32)
            (c.registers (instr / 2 ^ 15 % 32) + c.registers (instr / 2 ^ 10 % 32))) },
          m, none, none⟩) ∧
    (2 ^ 32 - 1 < c.registers (instr / 2 ^ 15 % 32) + c.registers (instr / 2 ^ 10 % 32) →
      c.execute m instr =
        some ⟨{ c with registers := (Regs.write c.registers (instr / 2 ^ 20 % 32)
            ((c.registers (instr / 2 ^ 15 % 32) + c.registers (instr / 2 ^ 10 % 32)) / 2)) },
          m,
          some (CpuError.new c.program_counter c.stack_pointer
            (Regs.write c.registers (instr / 2 ^ 20 % 32)
              ((c.registers (instr / 2 ^ 15 % 32) + c.registers (instr / 2 ^ 10 % 32)) / 2))
            CpuErrorType.AddWithOverflow c.index),
          none⟩ ∧
      CpuErrorType.AddWithOverflow.severity = some CpuErrorSeverity.Minor) := by
  have hdec : (OpCode.tryFrom (instr / 2 ^ 25 % 128)).getD OpCode.NOOP = OpCode.ADD := by
    rw [hop]
    rfl
  constructor
  · intro hle
    have hng : ¬ (c.registers (instr / 2 ^ 15 % 32) + c.registers (instr / 2 ^ 10 % 32)
        > 0xFFFFFFFF) := by omega
    simp only [Core.execute, hdec, if_neg hng]
    rw [Nat.mod_eq_of_lt (show c.registers (instr / 2 ^ 15 % 32) +
      c.registers (instr / 2 ^ 10 % 32) < 2 ^ 32 from by omega)]
  · intro hlt
    have hg : c.registers (instr / 2 ^ 15 % 32) + c.registers (instr / 2 ^ 10 % 32)
        > 0xFFFFFFFF := by omega
    refine ⟨?_, rfl⟩
    simp only [Core.execute, hdec, if_pos hg]
    rw [Nat.mod_eq_of_lt (show (c.registers (instr / 2 ^ 15 % 32) +
      c.registers (instr / 2 ^ 10 % 32)) / 2 < 2 ^ 32 from by omega)]

/-- Claim C4 witness: with `R[1] = 0xFFFFFFFF`, `R[2] = 1`, `ADD r3, r1, r2`
stores `0x80000000` and returns a minor `AddWithOverflow` fault. -/
theorem claim_C4_witness :
    c4core.execute c4mem c4instr =
      some ⟨{ c4core with registers := (Regs.write c4core.registers 3 0x80000000) },
        c4mem,
        some (CpuError.new 0x100 0x40000000 (Regs.write c4core.registers 3 0x80000000)
          CpuErrorType.AddWithOverflow 0),
        none⟩ := by
  have h := (claim_C4_add_overflow c4core c4mem c4instr (by decide) (by decide)
    (by decide)).2 (by decide)
  exact h.1

/-- Claim C10: executing IRPT_SEND with a 5-bit target field outside 0..3
completes the tick successfully: no message is sent, no fault is raised, and
core and memory are unchanged (the send is silently skipped). -/
theorem claim_C10_irpt_send_skipped (c : Core) (m : Memory) (instr : Nat)
    (hop : instr / 2 ^ 25 % 128 = 0x50)
    (htgt : 4 ≤ instr / 2 ^ 20 % 32) :
    c.execute m instr = some ⟨c, m, none, none⟩ := by
  have hdec : (OpCode.tryFrom (instr / 2 ^ 25 % 128)).getD OpCode.NOOP = OpCode.IRPT_SEND := by
    rw [hop]
    rfl
  have hng : ¬ (instr / 2 ^ 20 % 32 < 4) := by omega
  simp only [Core.execute, hdec, if_neg hng]

/-- Claim C10 witness at a concrete out-of-range target. -/
theorem claim_C10_witness :
    c10core.execute c10mem c10instr = some ⟨c10core, c10mem, none, none⟩ :=
  claim_C10_irpt_send_skipped c10core c10mem c10instr (by decide) (by decide)

/-- Claim C6 (amended): an instruction word whose 7-bit opcode value has no
mapping decodes as NOOP and the dispatch completes with no fault (there is no
`InvalidOpCode` fault in the code); an opcode value that is mapped but has no
executor arm (`STOR_IMM`, 0x03) returns a severe `UnimplementedOpCode` fault. -/
theorem claim_C6_unknown_opcodes (c : Core) (m : Memory) (instr : Nat) :
    (OpCode.tryFrom (instr / 2 ^ 25 % 128) = none →
      c.execute m instr = some ⟨c, m, none, none⟩) ∧
    (instr / 2 ^ 25 % 128 = 0x03 →
      c.execute m instr =
        some ⟨c, m,
          some (CpuError.new c.program_counter c.stack_pointer c.registers
            (CpuErrorType.UnimplementedOpCode OpCode.STOR_IMM) c.index),
          none⟩ ∧
      CpuErrorType.severity (CpuErrorType.UnimplementedOpCode OpCode.STOR_IMM) =
        some CpuErrorSeverity.Severe) := by
  constructor
  · intro hnone
    have hdec : (OpCode.tryFrom (instr / 2 ^ 25 % 128)).getD OpCode.NOOP = OpCode.NOOP := by
      rw [hnone]
      rfl
    simp only [Core.execute, hdec]
  · intro hop
    have hdec : (OpCode.tryFrom (instr / 2 ^ 25 % 128)).getD OpCode.NOOP = OpCode.STOR_IMM := by
      rw [hop]
      rfl
    exact ⟨by simp only [Core.execute, hdec], rfl⟩

/-- Claim C6 counterexample: opcode value 0x7F has no mapping, yet the tick
completes as a NOOP with result `Ok(())` — no severe fault (and no
`InvalidOpCode` variant exists at all), contrary to the claim. -/
theorem claim_C6_counterexample :
    OpCode.tryFrom 0x7F = none ∧
    c6core.tick c6mem = some ⟨{ c6core with program_counter := 4 }, c6mem, none, none⟩ :=
  ⟨rfl, rfl⟩

/-- Claim C6 witness: a concrete unmapped opcode (0x7E) completes with no
fault, and a concrete `STOR_IMM` word returns the severe fault. -/
theorem claim_C6_witness :
    c6core.execute c6mem (0x7E * 2 ^ 25) = some ⟨c6core, c6mem, none, none⟩ ∧
    c6core.execute c6mem (0x03 * 2 ^ 25) =
      some ⟨c6core, c6mem,
        some (CpuError.new c6core.program_counter c6core.stack_pointer c6core.registers
          (CpuErrorType.UnimplementedOpCode OpCode.STOR_IMM) c6core.index),
        none⟩ :=
  ⟨(claim_C6_unknown_opcodes c6core c6mem (0x7E * 2 ^ 25)).1 (by decide),
   ((claim_C6_unknown_opcodes c6core c6mem (0x03 * 2 ^ 25)).2 (by decide)).1⟩

/-- Claim C2, behaviour of the code at the failing input: `handle_interrupts`
assigns `halted ← false` on a `Halt` interrupt and `halted ← true` on a
`Resume` interrupt — the opposite of the claimed polarity. -/
theorem claim_C2_code_behavior :
    (c2core.handle_interrupts ⟨0, InterruptType.Halt⟩ c2mem).halted = false ∧
    (c2core.handle_interrupts ⟨0, InterruptType.Resume⟩ c2mem).halted = true :=
  ⟨rfl, rfl⟩

/-- Claim C8: a soft reset sets PC to `index*4`, reads the 32-bit little-endian
word there (advancing PC by one per byte), sets PC to that word, sets SP to
`0x40000000`, and leaves all registers (and every other core field)
unchanged. -/
theorem claim_C8_reset_soft (c : Core) (m : Memory) (h : c.index * 4 + 4 ≤ 0x40000000) :
    c.reset_soft m =
      { c with
        program_counter := fromLeBytes (m.data (c.index * 4)) (m.data (c.index * 4 + 1))
          (m.data (c.index * 4 + 2)) (m.data (c.index * 4 + 3)),
        stack_pointer := 0x40000000 } := by
  obtain ⟨pc, sp, regs, eqf, idx, bsy, hlt⟩ := c
  simp only at h
  simp only [Core.reset_soft, Nat.zero_add]
  rw [Core.fetch_u32_eq _ _ (by simp only []; omega)]

/-- Claim C8 witness: with `RAM[0..3] = 0x00000088 LE`, core 0's soft reset
lands `PC = 0x88`, `SP = 0x40000000`, registers untouched. -/
theorem claim_C8_witness :
    (c8core.reset_soft c8mem).program_counter = 0x88 ∧
    (c8core.reset_soft c8mem).stack_pointer = 0x40000000 ∧
    (c8core.reset_soft c8mem).registers = c8core.registers := by
  have h := claim_C8_reset_soft c8core c8mem (by decide)
  rw [h]
  exact ⟨rfl, rfl, rfl⟩

theorem Core.advance_pc_sp (c : Core) : c.advance_pc.stack_pointer = c.stack_pointer := by
  unfold Core.advance_pc
  split <;> rfl

theorem Core.fetch_u32_sp (c : Core) (m : Memory) :
    (c.fetch_u32 m).1.stack_pointer = c.stack_pointer := by
  simp [Core.fetch_u32, Core.advance_pc_sp]

theorem Core.advance_sp_sp (c : Core) (h1 : 0x40000000 ≤ c.stack_pointer)
    (h2 : c.stack_pointer ≤ 0x80000000) :
    0x40000000 ≤ c.advance_sp.stack_pointer ∧ c.advance_sp.stack_pointer ≤ 0x80000000 := by
  unfold Core.advance_sp
  split <;> (dsimp only; omega)

theorem Core.decrease_sp_sp (c : Core) (h1 : 0x40000000 ≤ c.stack_pointer)
    (h2 : c.stack_pointer ≤ 0x80000000) :
    0x40000000 ≤ c.decrease_sp.stack_pointer ∧ c.decrease_sp.stack_pointer ≤ 0x80000000 := by
  unfold Core.decrease_sp
  split <;> (dsimp only; omega)

theorem Core.write_u32_sp_range (c : Core) (m : Memory) (v : Nat)
    (h1 : 0x40000000 ≤ c.stack_pointer) (h2 : c.stack_pointer ≤ 0x80000000) :
    0x40000000 ≤ (c.write_u32_to_ram m v).1.stack_pointer ∧
    (c.write_u32_to_ram m v).1.stack_pointer ≤ 0x80000000 := by
  unfold Core.write_u32_to_ram
  dsimp only
  have a1 := Core.advance_sp_sp c h1 h2
  have a2 := Core.advance_sp_sp _ a1.1 a1.2
  have a3 := Core.advance_sp_sp _ a2.1 a2.2
  exact Core.advance_sp_sp _ a3.1 a3.2

theorem Core.read_u32_sp_range (c : Core) (m : Memory)
    (h1 : 0x40000000 ≤ c.stack_pointer) (h2 : c.stack_pointer ≤ 0x80000000) :
    0x40000000 ≤ (c.read_u32_from_ram m).1.stack_pointer ∧
    (c.read_u32_from_ram m).1.stack_pointer ≤ 0x80000000 := by
  unfold Core.read_u32_from_ram
  dsimp only
  have a1 := Core.decrease_sp_sp c h1 h2
  have a2 := Core.decrease_sp_sp _ a1.1 a1.2
  have a3 := Core.decrease_sp_sp _ a2.1 a2.2
  exact Core.decrease_sp_sp _ a3.1 a3.2

theorem Core.pop_u32_sp_range (c : Core) (m : Memory)
    (h1 : 0x40000000 ≤ c.stack_pointer) (h2 : c.stack_pointer ≤ 0x80000000) :
    0x40000000 ≤ (c.pop_u32_from_ram m).1.stack_pointer ∧
    (c.pop_u32_from_ram m).1.stack_pointer ≤ 0x80000000 := by
  unfold Core.pop_u32_from_ram
  dsimp only
  have a1 := Core.decrease_sp_sp c h1 h2
  have a2 := Core.decrease_sp_sp _ a1.1 a1.2
  have a3 := Core.decrease_sp_sp _ a2.1 a2.2
  exact Core.decrease_sp_sp _ a3.1 a3.2

theorem Core.reset_soft_sp (c : Core) (m : Memory) :
    (c.reset_soft m).stack_pointer = 0x40000000 := rfl

theorem Core.reset_hard_sp (c : Core) (m : Memory) :
    (c.reset_hard m).stack_pointer = 0x40000000 := rfl

theorem Core.execute_sp_range (c : Core) (m : Memory) (instr : Nat) (r : TickResult)
    (h1 : 0x40000000 ≤ c.stack_pointer) (h2 : c.stack_pointer ≤ 0x80000000)
    (hr : c.execute m instr = some r) :
    0x40000000 ≤ r.core.stack_pointer ∧ r.core.stack_pointer ≤ 0x80000000 := by
  unfold Core.execute at hr
  cases hop : (OpCode.tryFrom (instr / 2 ^ 25 % 128)).getD OpCode.NOOP
  all_goals rw [hop] at hr
  all_goals dsimp only at hr
  case NOOP => obtain rfl := Option.some.inj hr; exact ⟨h1, h2⟩
  case LOAD_IMM => obtain rfl := Option.some.inj hr; exact ⟨h1, h2⟩
  case LDUP_IMM => obtain rfl := Option.some.inj hr; exact ⟨h1, h2⟩
  case STOR_IMM => obtain rfl := Option.some.inj hr; exact ⟨h1, h2⟩
  case LOAD_BYTE => obtain rfl := Option.some.inj hr; exact ⟨h1, h2⟩
  case STOR_BYTE => obtain rfl := Option.some.inj hr; exact ⟨h1, h2⟩
  case JUMP_IMM => obtain rfl := Option.some.inj hr; exact ⟨h1, h2⟩
  case JUMP_REG => obtain rfl := Option.some.inj hr; exact ⟨h1, h2⟩
  case ORR => obtain rfl := Option.some.inj hr; exact ⟨h1, h2⟩
  case ORI => obtain rfl := Option.some.inj hr; exact ⟨h1, h2⟩
  case XOR => obtain rfl := Option.some.inj hr; exact ⟨h1, h2⟩
  case AND => obtain rfl := Option.some.inj hr; exact ⟨h1, h2⟩
  case HALT => obtain rfl := Option.some.inj hr; exact ⟨h1, h2⟩
  case BRAN_IMM =>
    obtain rfl := Option.some.inj hr
    exact Core.write_u32_sp_range c m c.program_counter h1 h2
  case BRAN_REG =>
    obtain rfl := Option.some.inj hr
    exact Core.write_u32_sp_range c m c.program_counter h1 h2
  case RTRN =>
    obtain rfl := Option.some.inj hr
    exact Core.read_u32_sp_range c m h1 h2
  case RTRN_POP =>
    obtain rfl := Option.some.inj hr
    exact Core.pop_u32_sp_range c m h1 h2
  case RSET_SOFT =>
    obtain rfl := Option.some.inj hr
    dsimp only
    rw [Core.reset_soft_sp]
    omega
  case RSET_HARD =>
    obtain rfl := Option.some.inj hr
    dsimp only
    rw [Core.reset_hard_sp]
    omega
  case ADD =>
    split at hr <;> (obtain rfl := Option.some.inj hr; exact ⟨h1, h2⟩)
  case SUB =>
    split at hr <;> (obtain rfl := Option.some.inj hr; exact ⟨h1, h2⟩)
  case IRPT_SEND =>
    split at hr
    · split at hr <;>
        first
          | exact Option.noConfusion hr
          | (obtain rfl := Option.some.inj hr; exact ⟨h1, h2⟩)
    · obtain rfl := Option.some.inj hr; exact ⟨h1, h2⟩

/-- Claim C5 (amended): from a state with `0x40000000 ≤ SP ≤ 0x80000000`, every
completed tick leaves `0x40000000 ≤ SP ≤ 0x80000000` — note the inclusive upper
bound `0x80000000`, one past the claimed `0x7FFFFFFF`, which `advance_sp` does
reach. -/
theorem claim_C5_sp_amended (c : Core) (m : Memory) (r : TickResult)
    (h1 : 0x40000000 ≤ c.stack_pointer) (h2 : c.stack_pointer ≤ 0x80000000)
    (hr : c.tick m = some r) :
    0x40000000 ≤ r.core.stack_pointer ∧ r.core.stack_pointer ≤ 0x80000000 := by
  unfold Core.tick at hr
  dsimp only at hr
  refine Core.execute_sp_range _ m _ r ?_ ?_ hr
  · rw [Core.fetch_u32_sp]
    exact h1
  · rw [Core.fetch_u32_sp]
    exact h2

/-- Claim C5 counterexample: from the in-range state `SP = 0x7FFFFFFC`,
executing `BRAN_IMM` (four `advance_sp` steps) ends with `SP = 0x80000000`,
outside the claimed `0x40000000 ≤ SP ≤ 0x7FFFFFFF`. -/
theorem claim_C5_counterexample :
    0x40000000 ≤ c5ccore.stack_pointer ∧ c5ccore.stack_pointer ≤ 0x7FFFFFFF ∧
    (c5ccore.tick c5cmem).map TickResult.spv = some 0x80000000 :=
  ⟨by decide, by decide, rfl⟩

/-- Claim C5 witness: a concrete NOOP tick from `SP = 0x40000000` stays in
range. -/
theorem claim_C5_witness :
    0x40000000 ≤ c5wres.core.stack_pointer ∧ c5wres.core.stack_pointer ≤ 0x80000000 :=
  claim_C5_sp_amended c5wcore c5wmem c5wres (by decide) (by decide) rfl

/-- Claim C1, behaviour of the code at the failing input: with `R[2] = 0x1002`
(the claimed target address) and `R[3] = 0x5A`, STOR_BYTE writes the byte
directly into RAM at address 2 — the raw 5-bit field value, not the address
held in the register — and no Bus or device is consulted (`Core` accesses
`Memory` directly).  RAM at `0x1002` stays 0 only because nothing at all is
written there. -/
theorem claim_C1_code_behavior :
    c1core.registers 2 = 0x1002 ∧
    c1core.execute c1mem c1instr = some ⟨c1core, c1mem.setByte 2 0x5A, none, none⟩ ∧
    (c1mem.setByte 2 0x5A).data 2 = 0x5A ∧
    (c1mem.setByte 2 0x5A).data 0x1002 = c1mem.data 0x1002 :=
  ⟨rfl, rfl, rfl, rfl⟩

/-- Claim C9, behaviour of the code at the failing input: offset 10 (`0x0A`)
passes the `>= 0x10` rejection guard yet indexes past the 10-element register
array, so the Rust write panics (modelled `none`) instead of storing or
rejecting; offsets below 10 store and offsets `≥ 0x10` are rejected. -/
theorem claim_C9_code_behavior :
    c9gpu.write8 10 0x5A = none ∧
    c9gpu.write32 10 0x5A = none ∧
    (10 : Nat) < 0x10 ∧
    c9gpu.write8 2 0x5A = some { c9gpu with registers := c9gpu.registers.set 2 0x5A } ∧
    c9gpu.write8 0x10 0x5A = some c9gpu :=
  ⟨rfl, rfl, by decide, rfl, rfl⟩

theorem busScan_none (regions : List MmioRegion) (addr v : Nat)
    (h : firstHit regions addr = none) :
    busWrite8Scan regions addr v = none ∧
    ∀ ram : Memory, busRead8Scan regions ram addr = ram.data addr := by
  induction regions with
  | nil => exact ⟨rfl, fun ram => rfl⟩
  | cons d rest ih =>
    by_cases hc : d.base ≤ addr ∧ addr < d.base + d.size
    · simp only [firstHit, if_pos hc] at h
      exact Option.noConfusion h
    · simp only [firstHit, if_neg hc] at h
      obtain ⟨hw, hrd⟩ := ih (Option.map_eq_none'.mp h)
      constructor
      · simp only [busWrite8Scan, if_neg hc, hw]
        rfl
      · intro ram
        simp only [busRead8Scan, if_neg hc]
        exact hrd ram

theorem busScan_some (regions : List MmioRegion) (addr v : Nat) :
    ∀ i, firstHit regions addr = some i →
      ∃ d, regions.get? i = some d ∧
        d.base ≤ addr ∧ addr < d.base + d.size ∧
        busWrite8Scan regions addr v =
          some (regions.set i { d with devWrites := d.devWrites ++ [(addr - d.base, v)] }) ∧
        ∀ ram : Memory, busRead8Scan regions ram addr = d.devRead (addr - d.base) := by
  induction regions with
  | nil => intro i hi; exact Option.noConfusion hi
  | cons d rest ih =>
    intro i hi
    by_cases hc : d.base ≤ addr ∧ addr < d.base + d.size
    · simp only [firstHit, if_pos hc] at hi
      obtain rfl := Option.some.inj hi
      refine ⟨d, rfl, hc.1, hc.2, ?_, ?_⟩
      · simp only [busWrite8Scan, if_pos hc, List.set_cons_zero]
      · intro ram
        simp only [busRead8Scan, if_pos hc]
    · simp only [firstHit, if_neg hc] at hi
      obtain ⟨k, hk, rfl⟩ := Option.map_eq_some'.mp hi
      obtain ⟨d2, hd2, hc1, hc2, hw, hrd⟩ := ih k hk
      refine ⟨d2, ?_, hc1, hc2, ?_, ?_⟩
      · simpa using hd2
      · simp only [busWrite8Scan, if_neg hc, hw, Option.map_some', List.set_cons_succ]
      · intro ram
        simp only [busRead8Scan, if_neg hc]
        exact hrd ram

/-- Claim C7: `Bus::write8` delivers the write to the first registered region
with `base ≤ addr < base + size`, as `write8(addr - base, v)` on that device,
leaving backing RAM and every other region untouched; with no covering region
the byte goes to RAM.  `Bus::read8` routes symmetrically: the device byte for
covered addresses, the RAM byte otherwise. -/
theorem claim_C7_bus_routing (b : Bus) (addr v : Nat) :
    (∀ i, firstHit b.regions addr = some i →
      ∃ d, b.regions.get? i = some d ∧
        d.base ≤ addr ∧ addr < d.base + d.size ∧
        b.write8 addr v =
          { b with regions :=
              (b.regions.set i { d with devWrites := d.devWrites ++ [(addr - d.base, v)] }) } ∧
        b.read8 addr = d.devRead (addr - d.base)) ∧
    (firstHit b.regions addr = none →
      b.write8 addr v = { b with ram := b.ram.setByte addr v } ∧
      b.read8 addr = b.ram.data addr) := by
  obtain ⟨ram, regions⟩ := b
  constructor
  · intro i hi
    obtain ⟨d, hd, hc1, hc2, hw, hrd⟩ := busScan_some regions addr v i hi
    refine ⟨d, hd, hc1, hc2, ?_, hrd ram⟩
    unfold Bus.write8
    dsimp only
    rw [hw]
  · intro hnone
    obtain ⟨hw, hrd⟩ := busScan_none regions addr v hnone
    refine ⟨?_, hrd ram⟩
    unfold Bus.write8
    dsimp only
    rw [hw]

/-- Claim C7 witness: with one region `[0x1000, 0x1010)`, a write to `0x1002`
reaches the device as `write8(2, 0x5A)` with RAM untouched, and a read of
`0x1002` returns the device byte. -/
theorem claim_C7_witness :
    c7bus.write8 0x1002 0x5A =
      { c7bus with regions := [{ c7reg with devWrites := [(2, 0x5A)] }] } ∧
    c7bus.read8 0x1002 = 0xAB := by
  obtain ⟨d, hd, hc1, hc2, hw, hrd⟩ := (claim_C7_bus_routing c7bus 0x1002 0x5A).1 0 rfl
  have hde : d = c7reg := Option.some.inj (hd.symm.trans rfl)
  subst hde
  exact ⟨hw.trans rfl, hrd.trans rfl⟩

/-- Claim C3 (amended): from any state with `0x40000000 ≤ SP ≤ 0x7FFFFFFC`
(so the four-byte push does not cross the `advance_sp` wrap point) and
`PC + 4 ≤ 0x40000000`, executing a fetched `BRAN_IMM` and then a `RTRN` at the
branch target restores SP to its pre-branch value and sets PC to `PC + 4`, the
address immediately after the `BRAN_IMM` — the little-endian push and the
reversed-order big-endian pop cancel exactly. -/
theorem claim_C3_bran_rtrn_roundtrip (c : Core) (m : Memory)
    (hsp1 : 0x40000000 ≤ c.stack_pointer) (hsp2 : c.stack_pointer ≤ 0x7FFFFFFC)
    (hpc : c.program_counter + 4 ≤ 0x40000000)
    (hbran : (c.fetch_u32 m).2 / 2 ^ 25 % 128 = 0x12)
    (hrtrn : fromLeBytes (m.data ((c.fetch_u32 m).2 % 2 ^ 25))
        (m.data ((c.fetch_u32 m).2 % 2 ^ 25 + 1))
        (m.data ((c.fetch_u32 m).2 % 2 ^ 25 + 2))
        (m.data ((c.fetch_u32 m).2 % 2 ^ 25 + 3)) / 2 ^ 25 % 128 = 0x3E) :
    (c.tick2 m).map TickResult.spv = some c.stack_pointer ∧
    (c.tick2 m).map TickResult.pcv = some (c.program_counter + 4) := by
  obtain ⟨pc, sp, regs, eqf, idx, bsy, hlt⟩ := c
  dsimp only at hsp1 hsp2 hpc hbran hrtrn ⊢
  have hf := Core.fetch_u32_eq ⟨pc, sp, regs, eqf, idx, bsy, hlt⟩ m (by dsimp only; omega)
  dsimp only at hf
  rw [hf] at hbran hrtrn
  dsimp only at hbran hrtrn
  set I : Nat := fromLeBytes (m.data pc) (m.data (pc + 1)) (m.data (pc + 2))
    (m.data (pc + 3)) with hIdef
  set T : Nat := I % 2 ^ 25 with hTdef
  have hTlt : T < 2 ^ 25 := by
    rw [hTdef]
    exact Nat.mod_lt _ (by norm_num)
  have hdec1 : (OpCode.tryFrom (I / 2 ^ 25 % 128)).getD OpCode.NOOP = OpCode.BRAN_IMM := by
    rw [hbran]
    rfl
  have hw := Core.write_u32_to_ram_eq ⟨pc + 4, sp, regs, eqf, idx, bsy, hlt⟩ m (pc + 4)
    (by dsimp only; omega) (by dsimp only; omega)
  dsimp only at hw
  set M2 : Memory := (((m.setByte sp (leByte (pc + 4) 0)).setByte (sp + 1)
    (leByte (pc + 4) 1)).setByte (sp + 2) (leByte (pc + 4) 2)).setByte (sp + 3)
    (leByte (pc + 4) 3) with hM2def
  have htick1 : Core.tick ⟨pc, sp, regs, eqf, idx, bsy, hlt⟩ m =
      some ⟨⟨T, sp + 4, regs, eqf, idx, bsy, hlt⟩, M2, none, none⟩ := by
    unfold Core.tick
    rw [hf]
    dsimp only
    unfold Core.execute
    rw [hdec1]
    dsimp only
    rw [hw]
  have hm2read : ∀ k, k < 0x40000000 → M2.data k = m.data k := by
    intro k hk
    rw [hM2def]
    rw [Memory.setByte_other _ _ _ _ (by omega), Memory.setByte_other _ _ _ _ (by omega),
      Memory.setByte_other _ _ _ _ (by omega), Memory.setByte_other _ _ _ _ (by omega)]
  have hf2 := Core.fetch_u32_eq ⟨T, sp + 4, regs, eqf, idx, bsy, hlt⟩ M2
    (by dsimp only; omega)
  dsimp only at hf2
  rw [hm2read T (by omega), hm2read (T + 1) (by omega), hm2read (T + 2) (by omega),
    hm2read (T + 3) (by omega)] at hf2
  have hdec2 : (OpCode.tryFrom (fromLeBytes (m.data T) (m.data (T + 1)) (m.data (T + 2))
      (m.data (T + 3)) / 2 ^ 25 % 128)).getD OpCode.NOOP = OpCode.RTRN := by
    rw [hrtrn]
    rfl
  have hrd := Core.read_u32_from_ram_eq ⟨T + 4, sp + 4, regs, eqf, idx, bsy, hlt⟩ M2
    (by dsimp only; omega)
  dsimp only at hrd
  rw [show sp + 4 - 1 = sp + 3 from by omega, show sp + 4 - 2 = sp + 2 from by omega,
    show sp + 4 - 3 = sp + 1 from by omega, show sp + 4 - 4 = sp from by omega] at hrd
  have hb3 : M2.data (sp + 3) = leByte (pc + 4) 3 := by
    rw [hM2def, Memory.setByte_self]
  have hb2 : M2.data (sp + 2) = leByte (pc + 4) 2 := by
    rw [hM2def, Memory.setByte_other _ _ _ _ (by omega), Memory.setByte_self]
  have hb1 : M2.data (sp + 1) = leByte (pc + 4) 1 := by
    rw [hM2def, Memory.setByte_other _ _ _ _ (by omega),
      Memory.setByte_other _ _ _ _ (by omega), Memory.setByte_self]
  have hb0 : M2.data sp = leByte (pc + 4) 0 := by
    rw [hM2def, Memory.setByte_other _ _ _ _ (by omega),
      Memory.setByte_other _ _ _ _ (by omega), Memory.setByte_other _ _ _ _ (by omega),
      Memory.setByte_self]
  rw [hb3, hb2, hb1, hb0] at hrd
  rw [pushed_bytes_roundtrip (pc + 4) (by omega)] at hrd
  have htick2 : Core.tick ⟨T, sp + 4, regs, eqf, idx, bsy, hlt⟩ M2 =
      some ⟨⟨pc + 4, sp, regs, eqf, idx, bsy, hlt⟩, M2, none, none⟩ := by
    unfold Core.tick
    rw [hf2]
    dsimp only
    unfold Core.execute
    rw [hdec2]
    dsimp only
    rw [hrd]
  unfold Core.tick2
  rw [htick1]
  dsimp only
  rw [htick2]
  exact ⟨rfl, rfl⟩

/-- Claim C3 counterexample: from `SP = 0x7FFFFFFD` the push crosses the
`advance_sp` wrap point, and `BRAN_IMM 0x200` followed by `RTRN` ends with
`SP = 0x7FFFFFFC` (not restored) and `PC = 0x10400` (not `0x104`). -/
theorem claim_C3_counterexample :
    c3ccore.stack_pointer = 0x7FFFFFFD ∧
    (c3ccore.tick2 c3cmem).map TickResult.spv = some 0x7FFFFFFC ∧
    (c3ccore.tick2 c3cmem).map TickResult.pcv = some 0x10400 :=
  ⟨rfl, rfl, rfl⟩

/-- Claim C3 witness: the spec scenario — `BRAN_IMM 0x200` at `PC = 0x100`,
`RTRN` at `0x200` — restores `SP = 0x40000000` and lands `PC = 0x104`. -/
theorem claim_C3_witness :
    (c3wcore.tick2 c3cmem).map TickResult.spv = some 0x40000000 ∧
    (c3wcore.tick2 c3cmem).map TickResult.pcv = some 0x104 :=
  claim_C3_bran_rtrn_roundtrip c3wcore c3cmem (by decide) (by decide) (by decide)
    (by decide) (by decide)

end RustyVM
